import Mathlib

/-!
Verification development for the `ep-auth-frontend` repository: a shallow
embedding of the client-side authentication-token lifecycle
(`src/contexts/AuthContext.tsx`), the registration flow
(`src/components/Registration.tsx`) and the protected-endpoint call
(`src/App.tsx`), together with theorems settling the specification claims.

Modelling conventions:
- JavaScript strings become Lean `String`; `string | null` becomes
  `Option String`.
- JavaScript numbers relevant here (`Date.now()`, the JWT `exp` claim) are
  modelled as `ℚ`; every number produced by `JSON.parse` is finite, which
  `ℚ` captures.
- The browser primitives `atob` and `JSON.parse` are external collaborators
  of the repository; they are passed in as an explicit environment `JsEnv`
  (`atob` returning `none` models a thrown `InvalidCharacterError`,
  `parseJson` returning `none` models a thrown `SyntaxError`).
- `localStorage` is modelled by the value stored under its single relevant
  key `authToken` (`Option String`); `Date.now()` by an explicit `now : ℚ`.
- JSON values are the inductive `Json`; the `null` returned by an empty
  response body and the JSON value `null` coincide, exactly as in
  JavaScript.
-/

/-- JSON values as produced by `JSON.parse`. -/
inductive Json where
  | null : Json
  | bool : Bool → Json
  | num : ℚ → Json
  | str : String → Json
  | arr : List Json → Json
  | obj : List (String × Json) → Json

/-- JavaScript truthiness of a JSON value: `null`, `false`, `0` and `""`
are falsy; every array and object is truthy. -/
def jsTruthy : Json → Bool
  | Json.null => false
  | Json.bool b => b
  | Json.num q => q != 0
  | Json.str s => s != ""
  | Json.arr _ => true
  | Json.obj _ => true

/-- Whether `typeof v === "object"` in JavaScript: true for `null`,
arrays and objects. -/
def jsTypeofObject : Json → Bool
  | Json.null => true
  | Json.arr _ => true
  | Json.obj _ => true
  | _ => false

/-- JavaScript property access `v[k]` on a JSON value: `none` models
`undefined`. On objects the last binding of a duplicated key wins, as in
the result of `JSON.parse`; on every non-object the properties used by
this program are absent. -/
def jsGet (v : Json) (k : String) : Option Json :=
  match v with
  | Json.obj fields => (fields.reverse.find? (fun p => p.1 == k)).map Prod.snd
  | _ => none

/-- The nullish-coalescing operator `a ?? b`: `b` when `a` is `null` or
`undefined` (`none`), otherwise `a`. -/
def jsNullish (a b : Option Json) : Option Json :=
  match a with
  | none => b
  | some Json.null => b
  | some v => some v

/-- Truthiness of a JavaScript value that is either absent (`undefined`,
modelled `none`) or a JSON value. -/
def jsTruthyOpt : Option Json → Bool
  | none => false
  | some v => jsTruthy v

/-- Truthiness of a `string | null` value: falsy exactly when `null` or
the empty string. -/
def jsTruthyStr : Option String → Bool
  | none => false
  | some s => s != ""

/-- Auxiliary recursion for `jsSplit` over the character list. -/
def jsSplitCharAux (sep : Char) : List Char → List (List Char)
  | [] => [[]]
  | c :: rest =>
    if c = sep then [] :: jsSplitCharAux sep rest
    else
      match jsSplitCharAux sep rest with
      | [] => [[c]]
      | g :: gs => (c :: g) :: gs

/-- JavaScript `String.prototype.split` with a single-character
separator: the empty string yields `[""]`, adjacent separators yield
empty segments, and a trailing separator yields a trailing empty
segment. -/
def jsSplit (sep : Char) (s : String) : List String :=
  (jsSplitCharAux sep s.data).map String.mk

/-- The browser primitives the token store depends on, as an abstract
environment: `atob` (base64 decoding; `none` = throw) and `JSON.parse`
(`none` = throw). -/
structure JsEnv where
  atob : String → Option String
  parseJson : String → Option Json

/-- `String.prototype.padEnd(n, c)`: pad on the right with `c` up to
length `n` (no-op when already at least that long). -/
def padEnd (s : String) (n : Nat) (c : Char) : String :=
  s ++ String.mk (List.replicate (n - s.length) c)

/-- A global character-for-character replace, as performed by the
source's regex replaces over the whole string. -/
def jsReplaceAll (f : Char → Char) (s : String) : String :=
  String.mk (s.data.map f)

/-- First character mapping of the base64url-to-base64 conversion: the
source's global replace of every dash by a plus. -/
def base64UrlDash (c : Char) : Char :=
  if c = '-' then '+' else c

/-- Second character mapping of the base64url-to-base64 conversion: the
source's global replace of every underscore by a forward slash. -/
def base64UrlUnderscore (c : Char) : Char :=
  if c = '_' then '/' else c

/-- `getTokenExpiryTime` from `src/contexts/AuthContext.tsx`: split the
token on `"."`; with exactly three segments, map the middle segment from
base64url to base64, pad with `'='` to `Math.ceil(len / 4) * 4`
characters, decode with `atob`, parse as JSON, and return `exp * 1000`
when the parsed value has a finite numeric `exp` property; `none` (the
source's `null`) in every other case, including a thrown decode or parse
error. Property access on a parsed `null` throws and is caught, which
also yields `none`. -/
def getTokenExpiryTime (env : JsEnv) (token : String) : Option ℚ :=
  match jsSplit '.' token with
  | [_, part1, _] =>
    let payload := padEnd (jsReplaceAll base64UrlUnderscore
      (jsReplaceAll base64UrlDash part1)) ((part1.length + 3) / 4 * 4) '='
    match env.atob payload with
    | none => none
    | some decodedText =>
      match env.parseJson decodedText with
      | none => none
      | some decodedPayload =>
        match jsGet decodedPayload "exp" with
        | some (Json.num e) => some (e * 1000)
        | _ => none
  | _ => none

/-- `isTokenExpired` from `src/contexts/AuthContext.tsx`: a token with no
determinable expiry time counts as expired; otherwise expired exactly when
`Date.now() >= expiryTime`. -/
def isTokenExpired (env : JsEnv) (now : ℚ) (token : String) : Bool :=
  match getTokenExpiryTime env token with
  | none => true
  | some expiryTime => decide (expiryTime ≤ now)

/-- The token store's state: the React `token` state and the value stored
under the `localStorage` key `authToken` (`none` = key absent). -/
structure AuthState where
  token : Option String
  storage : Option String
  deriving DecidableEq

/-- The derived `isAuthenticated` value, `Boolean(token)`: true exactly
when the token is a non-null, non-empty string. -/
def isAuthenticated (s : AuthState) : Bool :=
  match s.token with
  | none => false
  | some t => t != ""

/-- `setToken` from `src/contexts/AuthContext.tsx`. A truthy `value` is
checked for expiry: if expired, the stored key is removed and the state
token set to `null`; otherwise the value is persisted and becomes the
token. A falsy `value` (`null` or `""`) removes the stored key and becomes
the state token unchecked. The resulting state does not depend on the
previous state. -/
def setToken (env : JsEnv) (now : ℚ) (value : Option String) : AuthState :=
  match value with
  | some v =>
    if v = "" then
      { token := some "", storage := none }
    else if isTokenExpired env now v then
      { token := none, storage := none }
    else
      { token := some v, storage := some v }
  | none => { token := none, storage := none }

/-- `logout` from `src/contexts/AuthContext.tsx`: `setToken(null)`. -/
def logout (env : JsEnv) (now : ℚ) : AuthState :=
  setToken env now none

/-- The `useState` initializer of `AuthProvider`: rehydrate from the
`localStorage` key `authToken`. A falsy saved value (`null` or `""`)
yields an unauthenticated state with the storage untouched; an expired
saved value is removed from storage; otherwise the saved value becomes
the initial token. -/
def initialAuthState (env : JsEnv) (now : ℚ) (savedToken : Option String) :
    AuthState :=
  match savedToken with
  | none => { token := none, storage := savedToken }
  | some v =>
    if v = "" then
      { token := none, storage := savedToken }
    else if isTokenExpired env now v then
      { token := none, storage := none }
    else
      { token := some v, storage := savedToken }

/-- A `JsEnv` whose `atob` and `JSON.parse` always throw; used to
instantiate theorems at concrete inputs that never reach these
primitives. -/
def failingJsEnv : JsEnv :=
  { atob := fun _ => none, parseJson := fun _ => none }

/-- The two selectable registration roles (`RegistrationType` without its
`null` case; the unselected state is `Option.none`). -/
inductive RegistrationRole where
  | customer : RegistrationRole
  | tradesperson : RegistrationRole
  deriving DecidableEq

/-- The string a role interpolates to in a JavaScript template literal;
`null` interpolates to the text `null`. -/
def regTypeToString : Option RegistrationRole → String
  | some RegistrationRole.customer => "customer"
  | some RegistrationRole.tradesperson => "tradesperson"
  | none => "null"

/-- `RegistrationProps` from `src/components/Registration.tsx`: the three
form fields. -/
structure RegistrationProps where
  username : String
  password : String
  confirmPassword : String
  deriving DecidableEq

/-- MUI `AlertColor`: the severity of a snackbar notification. -/
inductive AlertColor where
  | success : AlertColor
  | info : AlertColor
  | warning : AlertColor
  | error : AlertColor
  deriving DecidableEq

/-- `Response.ok` of the fetch API: status in the inclusive range
200 to 299. -/
def httpOk (status : Nat) : Bool :=
  decide (200 ≤ status) && decide (status ≤ 299)

/-- `ApiResponse` as produced by `postJson`: the HTTP status and the body
as parsed by `parseResponseBody` (`Json.null` for an empty body). `ok` is
derived from the status exactly as the fetch API defines it. -/
structure ApiResponse where
  status : Nat
  data : Json

/-- Derived `Response.ok` of an `ApiResponse`. -/
def ApiResponse.ok (r : ApiResponse) : Bool :=
  httpOk r.status

/-- `parseResponseBody` from `src/components/Registration.tsx`: an empty
body is `null`; otherwise the result of `JSON.parse`, falling back to the
raw text when parsing throws. -/
def parseResponseBody (env : JsEnv) (text : String) : Json :=
  if text = "" then
    Json.null
  else
    match env.parseJson text with
    | some parsed => parsed
    | none => Json.str text

/-- `extractToken` from `src/components/Registration.tsx`: `undefined`
(`none`) for a falsy or non-object body; otherwise the nullish-coalescing
chain over the `token`, `accessToken` and `jwt` properties. -/
def extractToken (data : Json) : Option Json :=
  if !jsTruthy data || !jsTypeofObject data then
    none
  else
    jsNullish (jsGet data "token")
      (jsNullish (jsGet data "accessToken") (jsGet data "jwt"))

/-- `getErrorMessage` from `src/components/Registration.tsx`: the body
itself when it is a string, its string `message` property when it is an
object having one, the fallback otherwise (also for every falsy body). -/
def getErrorMessage (data : Json) (fallback : String) : String :=
  if !jsTruthy data then
    fallback
  else
    match data with
    | Json.str s => s
    | _ =>
      if jsTypeofObject data then
        match jsGet data "message" with
        | some (Json.str m) => m
        | _ => fallback
      else
        fallback

/-- `validateRegistrationData` from `src/components/Registration.tsx`:
`some message` on the first failing check, `none` when validation
passes. -/
def validateRegistrationData (data : RegistrationProps)
    (registrationType : Option RegistrationRole) : Option String :=
  if data.username = "" || data.password = "" || data.confirmPassword = "" then
    some "Please fill in all fields!"
  else if data.password != data.confirmPassword then
    some "Passwords do not match!"
  else if registrationType = none then
    some "Please select a registration type."
  else
    none

/-- A request issued by the registration flow, with its JSON payload
fields. -/
inductive Request where
  | register : String → String → Option RegistrationRole → Request
  | login : String → String → Request
  deriving DecidableEq

/-- The observable effects of one `submitHandler` run: snackbar notices
opened (message, severity), requests issued in order, values passed to
the Token Store's `setToken`, and messages written to the
`postAuthSuccessMessage` session key. A value passed to `setToken` is
recorded as the raw JSON value the extraction produced. -/
structure SubmitResult where
  notices : List (String × AlertColor)
  requests : List Request
  tokenCalls : List Json
  pendingSuccess : List String

/-- The network environment a `submitHandler` run interacts with: the
response to the registration request and, when one is issued, to the
login request. -/
structure SubmitEnv where
  registerResp : ApiResponse
  loginResp : ApiResponse

/-- The login phase of `submitHandler` (reached when registration
succeeded without yielding a truthy token): post the same credentials to
the login endpoint, report a not-ok response with `getErrorMessage` and
the status, report a missing token, otherwise record the pending success
message and hand the token to the store. -/
def loginPhase (regd : RegistrationProps) (rt : Option RegistrationRole)
    (completeRegistrationMessage : String) (env : SubmitEnv) : SubmitResult :=
  let loginResult := env.loginResp
  let reqs := [Request.register regd.username regd.password rt,
    Request.login regd.username regd.password]
  if loginResult.ok = false then
    { notices := [(getErrorMessage loginResult.data
        "Login failed after registration." ++ " (status " ++
        toString loginResult.status ++ ")", AlertColor.error)],
      requests := reqs, tokenCalls := [], pendingSuccess := [] }
  else
    match extractToken loginResult.data with
    | some tokv =>
      if jsTruthy tokv then
        { notices := [], requests := reqs, tokenCalls := [tokv],
          pendingSuccess := [completeRegistrationMessage] }
      else
        { notices := [("Login succeeded, but no token was returned by the backend.",
            AlertColor.error)],
          requests := reqs, tokenCalls := [], pendingSuccess := [] }
    | none =>
      { notices := [("Login succeeded, but no token was returned by the backend.",
          AlertColor.error)],
        requests := reqs, tokenCalls := [], pendingSuccess := [] }

/-- `submitHandler` from `src/components/Registration.tsx`, on the path
where no transport exception is thrown: validate, post the registration
request, report a not-ok response, otherwise store a truthy extracted
token (recording the pending success message first) or fall through to
the login phase. -/
def submitHandler (regd : RegistrationProps) (rt : Option RegistrationRole)
    (env : SubmitEnv) : SubmitResult :=
  match validateRegistrationData regd rt with
  | some validationError =>
    { notices := [(validationError, AlertColor.error)], requests := [],
      tokenCalls := [], pendingSuccess := [] }
  | none =>
    let completeRegistrationMessage :=
      "Registered as " ++ regTypeToString rt ++ "!"
    let registerResult := env.registerResp
    if registerResult.ok = false then
      { notices := [(getErrorMessage registerResult.data
          "Registration failed." ++ " (status " ++
          toString registerResult.status ++ ")", AlertColor.error)],
        requests := [Request.register regd.username regd.password rt],
        tokenCalls := [], pendingSuccess := [] }
    else
      match extractToken registerResult.data with
      | some tokv =>
        if jsTruthy tokv then
          { notices := [],
            requests := [Request.register regd.username regd.password rt],
            tokenCalls := [tokv],
            pendingSuccess := [completeRegistrationMessage] }
        else
          loginPhase regd rt completeRegistrationMessage env
      | none => loginPhase regd rt completeRegistrationMessage env

/-- The full local state of the `Registration` component. -/
structure RegComponentState where
  registrationType : Option RegistrationRole
  registrationData : RegistrationProps
  showSnackBar : Bool
  snackBarMessage : String
  snackBarSeverity : AlertColor
  deriving DecidableEq

/-- `onClickHandler` from `src/components/Registration.tsx`: selecting a
role resets the three form fields exactly when the role differs from the
currently selected one, then records the selected role. -/
def onClickHandler (ty : RegistrationRole) (s : RegComponentState) :
    RegComponentState :=
  { s with
    registrationData :=
      if some ty != s.registrationType then
        { username := "", password := "", confirmPassword := "" }
      else
        s.registrationData,
    registrationType := some ty }

/-- The response to the protected-endpoint fetch: HTTP status and body
text. -/
structure ProtectedResponse where
  status : Nat
  bodyText : String

/-- The observable outcome of one `callProtectedEndpoint` run: whether
the request was issued at all, whether `logout()` was called, and the
`protectedResponse` message set. -/
structure ProtectedOutcome where
  requested : Bool
  loggedOut : Bool
  message : String
  deriving DecidableEq

/-- `callProtectedEndpoint` from `src/App.tsx`, on the path where fetch
does not throw: a falsy token short-circuits without a request; a not-ok
response with status 401 logs out with the session-expired message; any
other not-ok response reports the status and body (or a fallback for an
empty body); an ok response reports success. -/
def callProtectedEndpoint (token : Option String)
    (resp : ProtectedResponse) : ProtectedOutcome :=
  if !jsTruthyStr token then
    { requested := false, loggedOut := false,
      message := "No token available. Please login first." }
  else
    let bodyText := resp.bodyText
    if httpOk resp.status = false then
      let errorText := if bodyText = "" then "Request failed" else bodyText
      if resp.status = 401 then
        { requested := true, loggedOut := true,
          message := "Session expired. Please login again." }
      else
        { requested := true, loggedOut := false,
          message := "Error " ++ toString resp.status ++ ": " ++ errorText }
    else
      { requested := true, loggedOut := false,
        message := "Success " ++ toString resp.status ++ ": " ++
          (if bodyText = "" then "No content" else bodyText) }

/-- A sample environment for concrete instantiations: `atob` decodes the
base64 text `ab+/` to the text `PAYLOAD`, which parses to a JSON object
whose `exp` is `100` seconds. -/
def sampleJsEnv : JsEnv :=
  { atob := fun s => if s = "ab+/" then some "PAYLOAD" else none,
    parseJson := fun s =>
      if s = "PAYLOAD" then some (Json.obj [("exp", Json.num 100)]) else none }

/-- The empty string splits into one segment, so it has no determinable
expiry and counts as expired at every time. -/
theorem isTokenExpired_empty (env : JsEnv) (now : ℚ) :
    isTokenExpired env now "" = true := rfl

/-- A token that is not expired is in particular not the empty string. -/
theorem ne_empty_of_not_expired (env : JsEnv) (now : ℚ) (v : String)
    (h : isTokenExpired env now v = false) : v ≠ "" := by
  intro he
  subst he
  rw [isTokenExpired_empty] at h
  exact Bool.noConfusion h

/-- A string splitting into a three-element list is not empty. -/
theorem ne_empty_of_splitOn_three (token p0 p1 p2 : String)
    (h : jsSplit '.' token = [p0, p1, p2]) : token ≠ "" := by
  intro he
  subst he
  have hlen := congrArg List.length h
  simp [jsSplit, jsSplitCharAux] at hlen

/-- C1 (counterexample). The claim asserts the invariant
`isAuthenticated = (token != null)` after every `setToken` call with any
string argument. Calling `setToken` with the empty string stores the
empty string as the token — a non-null value — while `isAuthenticated`,
which is `Boolean(token)`, is false. -/
theorem C1_counterexample :
    (setToken failingJsEnv 0 (some "")).token = some "" ∧
    (setToken failingJsEnv 0 (some "")).token ≠ none ∧
    isAuthenticated (setToken failingJsEnv 0 (some "")) = false := by
  refine ⟨rfl, ?_, rfl⟩
  intro h
  exact Option.noConfusion h

/-- C1 (amended): `isAuthenticated` is `Boolean(token)`, hence true iff
the token is non-null and non-empty. The claimed equivalence
`isAuthenticated = (token != null)` holds in the initial state for every
rehydrated value, after `logout`, and after `setToken` with every
argument other than the empty string (for which the counterexample shows
it fails). -/
theorem C1_isAuthenticated_iff_token_nonnull (env : JsEnv) (now : ℚ)
    (savedToken : Option String) (value : Option String)
    (hv : value ≠ some "") :
    (isAuthenticated (initialAuthState env now savedToken) = true ↔
      (initialAuthState env now savedToken).token ≠ none) ∧
    (isAuthenticated (setToken env now value) = true ↔
      (setToken env now value).token ≠ none) ∧
    (isAuthenticated (logout env now) = true ↔
      (logout env now).token ≠ none) := by
  refine ⟨?_, ?_, ?_⟩
  · cases savedToken with
    | none => simp [initialAuthState, isAuthenticated]
    | some v =>
      by_cases hve : v = ""
      · subst hve
        simp [initialAuthState, isAuthenticated]
      · by_cases hexp : isTokenExpired env now v
        · simp [initialAuthState, hve, hexp, isAuthenticated]
        · simp [initialAuthState, hve, hexp, isAuthenticated]
  · cases value with
    | none => simp [setToken, isAuthenticated]
    | some v =>
      have hve : v ≠ "" := by
        intro he
        exact hv (by rw [he])
      by_cases hexp : isTokenExpired env now v
      · simp [setToken, hve, hexp, isAuthenticated]
      · simp [setToken, hve, hexp, isAuthenticated]
  · simp [logout, setToken, isAuthenticated]

/-- C1 (amended, witness): the amended equivalence instantiated at the
`logout` argument `null`. -/
theorem C1_isAuthenticated_iff_token_nonnull_witness :
    isAuthenticated (setToken failingJsEnv 0 none) = true ↔
      (setToken failingJsEnv 0 none).token ≠ none :=
  (C1_isAuthenticated_iff_token_nonnull failingJsEnv 0 none none
    (by decide)).2.1

/-- C2: for every non-null string value, `setToken` rejects the value —
leaving the state unauthenticated with the persisted key removed —
exactly when the value is determined expired; a value not determined
expired becomes the current token and is persisted. The third part
states the expiry rule of this revision: a value is determined expired
exactly when it has no determinable expiry instant or its expiry instant
is not in the future. -/
theorem C2_setToken_rejects_iff_expired (env : JsEnv) (now : ℚ) (v : String) :
    (isTokenExpired env now v = true ↔
      (isAuthenticated (setToken env now (some v)) = false ∧
        (setToken env now (some v)).storage = none)) ∧
    (isTokenExpired env now v = false →
      (setToken env now (some v)).token = some v ∧
      (setToken env now (some v)).storage = some v) ∧
    (isTokenExpired env now v = true ↔
      (getTokenExpiryTime env v = none ∨
        ∃ e, getTokenExpiryTime env v = some e ∧ e ≤ now)) := by
  refine ⟨?_, ?_, ?_⟩
  · by_cases hve : v = ""
    · subst hve
      simp [isTokenExpired_empty, setToken, isAuthenticated]
    · by_cases hexp : isTokenExpired env now v
      · simp [setToken, hve, hexp, isAuthenticated]
      · simp only [hexp, false_iff, not_and]
        simp [setToken, hve, hexp, isAuthenticated]
  · intro hexp
    have hve : v ≠ "" := ne_empty_of_not_expired env now v hexp
    simp [setToken, hve, hexp]
  · unfold isTokenExpired
    cases hget : getTokenExpiryTime env v with
    | none => simp
    | some e => simp [decide_eq_true_iff]

/-- C2 (witness): a structured token whose expiry is in the future is
accepted and persisted; evaluated in the sample environment. -/
theorem C2_setToken_rejects_iff_expired_witness :
    (setToken sampleJsEnv 0 (some "h.ab-_.s")).token = some "h.ab-_.s" ∧
    (setToken sampleJsEnv 0 (some "h.ab-_.s")).storage = some "h.ab-_.s" :=
  (C2_setToken_rejects_iff_expired sampleJsEnv 0 "h.ab-_.s").2.1 (by
    have h : isTokenExpired sampleJsEnv 0 "h.ab-_.s" =
        decide ((100 : ℚ) * 1000 ≤ 0) := rfl
    rw [h]
    exact decide_eq_false (by norm_num))

/-- C3: for every token with exactly three dot-separated segments whose
middle segment — after the base64url-to-base64 character mapping and
padding with `=` to a multiple of four characters — decodes and parses
to a JSON object with a numeric `exp` field, the computed expiry instant
is `exp * 1000` milliseconds; with that instant in the future the store
accepts the token (authenticated, persisted), with that instant in the
past it rejects it (unauthenticated). -/
theorem C3_structured_token_expiry (env : JsEnv) (now : ℚ) (token : String)
    (p0 p1 p2 decodedText : String) (fields : List (String × Json)) (e : ℚ)
    (hsplit : jsSplit '.' token = [p0, p1, p2])
    (hatob : env.atob (padEnd (jsReplaceAll base64UrlUnderscore
      (jsReplaceAll base64UrlDash p1)) ((p1.length + 3) / 4 * 4) '=') =
      some decodedText)
    (hparse : env.parseJson decodedText = some (Json.obj fields))
    (hexp : jsGet (Json.obj fields) "exp" = some (Json.num e)) :
    getTokenExpiryTime env token = some (e * 1000) ∧
    (now < e * 1000 →
      setToken env now (some token) =
        { token := some token, storage := some token } ∧
      isAuthenticated (setToken env now (some token)) = true) ∧
    (e * 1000 < now →
      (setToken env now (some token)).token = none ∧
      (setToken env now (some token)).storage = none ∧
      isAuthenticated (setToken env now (some token)) = false) := by
  have hne : token ≠ "" := ne_empty_of_splitOn_three token p0 p1 p2 hsplit
  have hval : getTokenExpiryTime env token = some (e * 1000) := by
    unfold getTokenExpiryTime
    rw [hsplit]
    simp only [hatob, hparse, hexp]
  have hexpired : isTokenExpired env now token = decide (e * 1000 ≤ now) := by
    unfold isTokenExpired
    rw [hval]
  refine ⟨hval, ?_, ?_⟩
  · intro hfut
    have hnotexp : isTokenExpired env now token = false := by
      rw [hexpired]
      simpa using hfut
    simp [setToken, hne, hnotexp, isAuthenticated]
  · intro hpast
    have hisexp : isTokenExpired env now token = true := by
      rw [hexpired]
      simpa using le_of_lt hpast
    simp [setToken, hne, hisexp, isAuthenticated]

/-- C3 (witness): the sample token `h.ab-_.s` in the sample environment
has expiry instant `100 * 1000` and is accepted at time `0`. -/
theorem C3_structured_token_expiry_witness :
    getTokenExpiryTime sampleJsEnv "h.ab-_.s" = some (100 * 1000) ∧
    setToken sampleJsEnv 0 (some "h.ab-_.s") =
      { token := some "h.ab-_.s", storage := some "h.ab-_.s" } := by
  have h := C3_structured_token_expiry sampleJsEnv 0 "h.ab-_.s" "h" "ab-_" "s"
    "PAYLOAD" [("exp", Json.num 100)] 100 (by decide) (by rfl) (by rfl)
    (by rfl)
  exact ⟨h.1, (h.2.1 (by norm_num)).1⟩

/-- C4 (counterexample): with the empty string stored under the durable
key, the stored value is determined expired (it has no determinable
expiry), yet startup rehydration leaves the key in place instead of
removing it as the claim requires for expired stored values. -/
theorem C4_counterexample :
    isTokenExpired failingJsEnv 0 "" = true ∧
    (initialAuthState failingJsEnv 0 (some "")).token = none ∧
    (initialAuthState failingJsEnv 0 (some "")).storage = some "" :=
  ⟨rfl, rfl, rfl⟩

/-- C4 (amended): at startup the store rehydrates from the durable key.
With nothing stored, or with the empty string stored, the state starts
unauthenticated and the storage is left untouched; a non-empty stored
value determined expired at that time is discarded (state
unauthenticated, key removed); otherwise the stored value becomes the
initial token and stays persisted. -/
theorem C4_rehydration (env : JsEnv) (now : ℚ) (saved : Option String) :
    ((saved = none ∨ saved = some "") →
      (initialAuthState env now saved).token = none ∧
      isAuthenticated (initialAuthState env now saved) = false ∧
      (initialAuthState env now saved).storage = saved) ∧
    (∀ v, saved = some v → v ≠ "" → isTokenExpired env now v = true →
      initialAuthState env now saved = { token := none, storage := none }) ∧
    (∀ v, saved = some v → isTokenExpired env now v = false →
      (initialAuthState env now saved).token = some v ∧
      (initialAuthState env now saved).storage = some v) := by
  refine ⟨?_, ?_, ?_⟩
  · rintro (h | h) <;> subst h <;> simp [initialAuthState, isAuthenticated]
  · rintro v rfl hv hexp
    simp [initialAuthState, hv, hexp]
  · rintro v rfl hexp
    have hv : v ≠ "" := ne_empty_of_not_expired env now v hexp
    simp [initialAuthState, hv, hexp]

/-- C4 (amended, witness): rehydrating the sample unexpired token keeps
it as the initial token and leaves it persisted. -/
theorem C4_rehydration_witness :
    (initialAuthState sampleJsEnv 0 (some "h.ab-_.s")).token =
      some "h.ab-_.s" ∧
    (initialAuthState sampleJsEnv 0 (some "h.ab-_.s")).storage =
      some "h.ab-_.s" :=
  (C4_rehydration sampleJsEnv 0 (some "h.ab-_.s")).2.2 "h.ab-_.s" rfl (by
    have h : isTokenExpired sampleJsEnv 0 "h.ab-_.s" =
        decide ((100 : ℚ) * 1000 ≤ 0) := rfl
    rw [h]
    exact decide_eq_false (by norm_num))

/-- A sample network environment: both endpoints answer 200 with an
empty body. -/
def sampleSubmitEnv : SubmitEnv :=
  { registerResp := { status := 200, data := Json.null },
    loginResp := { status := 200, data := Json.null } }

/-- C5: local validation stops at the first failure in the order all
fields non-empty, then passwords match, then a role selected; on any
failure the corresponding message is the only notice, surfaced at error
severity, and no request is issued. With an empty username the first
check fails, yielding the fill-in-all-fields notice. -/
theorem C5_validation_order (data : RegistrationProps)
    (rt : Option RegistrationRole) (env : SubmitEnv) :
    (data.username = "" ∨ data.password = "" ∨ data.confirmPassword = "" →
      validateRegistrationData data rt = some "Please fill in all fields!") ∧
    (data.username ≠ "" → data.password ≠ "" → data.confirmPassword ≠ "" →
      data.password ≠ data.confirmPassword →
      validateRegistrationData data rt = some "Passwords do not match!") ∧
    (data.username ≠ "" → data.password ≠ "" → data.confirmPassword ≠ "" →
      data.password = data.confirmPassword → rt = none →
      validateRegistrationData data rt =
        some "Please select a registration type.") ∧
    (∀ msg, validateRegistrationData data rt = some msg →
      submitHandler data rt env =
        { notices := [(msg, AlertColor.error)], requests := [],
          tokenCalls := [], pendingSuccess := [] }) := by
  refine ⟨?_, ?_, ?_, ?_⟩
  · intro h
    rcases h with h | h | h <;> simp [validateRegistrationData, h]
  · intro h1 h2 h3 h4
    simp [validateRegistrationData, h1, h2, h3, h4]
  · intro h1 h2 h3 h4 h5
    simp [validateRegistrationData, h1, h2, h3, h4, h5]
  · intro msg hmsg
    unfold submitHandler
    rw [hmsg]

/-- C5 (witness): submitting with an empty username yields the
fill-in-all-fields notice at error severity and issues no request. -/
theorem C5_validation_order_witness :
    submitHandler { username := "", password := "p", confirmPassword := "p" }
      none sampleSubmitEnv =
      { notices := [("Please fill in all fields!", AlertColor.error)],
        requests := [], tokenCalls := [], pendingSuccess := [] } := by
  have h := C5_validation_order
    { username := "", password := "p", confirmPassword := "p" } none
    sampleSubmitEnv
  exact h.2.2.2 "Please fill in all fields!" (h.1 (Or.inl rfl))

/-- Whatever the login response, the login phase has issued exactly the
registration request followed by one login request with the same
credentials. -/
theorem loginPhase_requests (regd : RegistrationProps)
    (rt : Option RegistrationRole) (msg : String) (env : SubmitEnv) :
    (loginPhase regd rt msg env).requests =
      [Request.register regd.username regd.password rt,
        Request.login regd.username regd.password] := by
  unfold loginPhase
  by_cases h : env.loginResp.ok = false
  · simp [h]
  · simp only [h, if_false]
    cases hx : extractToken env.loginResp.data with
    | none => rfl
    | some tokv => by_cases ht : jsTruthy tokv <;> simp [ht]

/-- After passing validation and a successful registration response with
an extracted token that is not truthy, `submitHandler` runs the login
phase. -/
theorem submitHandler_eq_loginPhase (regd : RegistrationProps)
    (rt : Option RegistrationRole) (env : SubmitEnv)
    (hval : validateRegistrationData regd rt = none)
    (hok : env.registerResp.ok = true)
    (hnotok : jsTruthyOpt (extractToken env.registerResp.data) = false) :
    submitHandler regd rt env =
      loginPhase regd rt ("Registered as " ++ regTypeToString rt ++ "!")
        env := by
  unfold submitHandler
  rw [hval]
  simp only [hok, Bool.true_eq_false, if_false]
  cases hx : extractToken env.registerResp.data with
  | none => rfl
  | some tokv =>
    rw [hx] at hnotok
    simp only [jsTruthyOpt] at hnotok
    simp [hnotok]

/-- A network environment whose registration endpoint answers 200 with
the body containing the opaque token `X`. -/
def tokenXEnv : SubmitEnv :=
  { registerResp :=
      { status := 200, data := Json.obj [("token", Json.str "X")] },
    loginResp := { status := 200, data := Json.null } }

/-- A network environment whose registration endpoint answers 200 with a
body containing the sample structured token. -/
def tokenSampleEnv : SubmitEnv :=
  { registerResp :=
      { status := 200, data := Json.obj [("token", Json.str "h.ab-_.s")] },
    loginResp := { status := 200, data := Json.null } }

/-- C6 (counterexample): the spec's test case, a successful registration
response whose body is the object with token `X`. The flow passes `X` to
the store's setter and makes no login call, but the store does not end
up holding `X`: `X` has no determinable expiry, so the setter rejects
it, leaving the state unauthenticated (shown at time `0`). -/
theorem C6_counterexample :
    (submitHandler { username := "u", password := "p", confirmPassword := "p" }
      (some RegistrationRole.customer) tokenXEnv).tokenCalls =
      [Json.str "X"] ∧
    (submitHandler { username := "u", password := "p", confirmPassword := "p" }
      (some RegistrationRole.customer) tokenXEnv).requests =
      [Request.register "u" "p" (some RegistrationRole.customer)] ∧
    (setToken failingJsEnv 0 (some "X")).token = none ∧
    isAuthenticated (setToken failingJsEnv 0 (some "X")) = false :=
  ⟨rfl, rfl, rfl, rfl⟩

/-- C6 (amended): for every successful registration response whose
extracted token value — the first non-nullish field among `token`,
`accessToken` and `jwt` — is truthy, the flow records the pending
success notice, passes that value to the Token Store's setter, and makes
no login call; a string handed to the setter is then actually held by
the store exactly when it is not determined expired. -/
theorem C6_register_token_stored (regd : RegistrationProps)
    (rt : Option RegistrationRole) (env : SubmitEnv) (tokv : Json)
    (hval : validateRegistrationData regd rt = none)
    (hok : env.registerResp.ok = true)
    (htok : extractToken env.registerResp.data = some tokv)
    (htruthy : jsTruthy tokv = true) :
    submitHandler regd rt env =
      { notices := [],
        requests := [Request.register regd.username regd.password rt],
        tokenCalls := [tokv],
        pendingSuccess := ["Registered as " ++ regTypeToString rt ++ "!"] } ∧
    (∀ jse now s, tokv = Json.str s →
      ((setToken jse now (some s)).token = some s ↔
        isTokenExpired jse now s = false)) := by
  constructor
  · unfold submitHandler
    rw [hval]
    simp only [hok, Bool.true_eq_false, if_false]
    rw [htok]
    simp [htruthy]
  · rintro jse now s rfl
    have hs : s ≠ "" := by
      intro he
      subst he
      simp [jsTruthy] at htruthy
    by_cases hexp : isTokenExpired jse now s
    · simp [setToken, hs, hexp]
    · simp [setToken, hs, hexp]

/-- C6 (amended, witness): a register response carrying the sample
structured token: the flow passes it to the store with no login call,
and the store, evaluated in the sample environment at time `0`, holds
it. -/
theorem C6_register_token_stored_witness :
    submitHandler { username := "u", password := "p", confirmPassword := "p" }
      (some RegistrationRole.customer) tokenSampleEnv =
      { notices := [],
        requests := [Request.register "u" "p" (some RegistrationRole.customer)],
        tokenCalls := [Json.str "h.ab-_.s"],
        pendingSuccess := ["Registered as customer!"] } ∧
    (setToken sampleJsEnv 0 (some "h.ab-_.s")).token = some "h.ab-_.s" := by
  have h := C6_register_token_stored
    { username := "u", password := "p", confirmPassword := "p" }
    (some RegistrationRole.customer) tokenSampleEnv
    (Json.str "h.ab-_.s") rfl rfl rfl rfl
  refine ⟨h.1, (h.2 sampleJsEnv 0 "h.ab-_.s" rfl).mpr ?_⟩
  have heq : isTokenExpired sampleJsEnv 0 "h.ab-_.s" =
      decide ((100 : ℚ) * 1000 ≤ 0) := rfl
  rw [heq]
  exact decide_eq_false (by norm_num)

/-- C7: a successful registration response yielding no truthy token
triggers exactly one login call posting the same username and password;
if the login response is also successful but yields no truthy token, the
backend-returned-no-token notice is surfaced at error severity and the
Token Store is never called. -/
theorem C7_login_fallback (regd : RegistrationProps)
    (rt : Option RegistrationRole) (env : SubmitEnv)
    (hval : validateRegistrationData regd rt = none)
    (hok : env.registerResp.ok = true)
    (hnotok : jsTruthyOpt (extractToken env.registerResp.data) = false) :
    (submitHandler regd rt env).requests =
      [Request.register regd.username regd.password rt,
        Request.login regd.username regd.password] ∧
    (env.loginResp.ok = true →
      jsTruthyOpt (extractToken env.loginResp.data) = false →
      (submitHandler regd rt env).notices =
        [("Login succeeded, but no token was returned by the backend.",
          AlertColor.error)] ∧
      (submitHandler regd rt env).tokenCalls = []) := by
  rw [submitHandler_eq_loginPhase regd rt env hval hok hnotok]
  constructor
  · exact loginPhase_requests regd rt _ env
  · intro hlok hlnotok
    unfold loginPhase
    simp only [hlok, Bool.true_eq_false, if_false]
    cases hx : extractToken env.loginResp.data with
    | none => exact ⟨rfl, rfl⟩
    | some tokv =>
      rw [hx] at hlnotok
      simp only [jsTruthyOpt] at hlnotok
      simp [hlnotok]

/-- C7 (witness): both endpoints answer 200 with an empty body; the flow
issues register then login with the same credentials, surfaces the
backend-returned-no-token notice and never calls the store. -/
theorem C7_login_fallback_witness :
    (submitHandler { username := "u", password := "p", confirmPassword := "p" }
      (some RegistrationRole.customer) sampleSubmitEnv).requests =
      [Request.register "u" "p" (some RegistrationRole.customer),
        Request.login "u" "p"] ∧
    (submitHandler { username := "u", password := "p", confirmPassword := "p" }
      (some RegistrationRole.customer) sampleSubmitEnv).notices =
      [("Login succeeded, but no token was returned by the backend.",
        AlertColor.error)] := by
  have h := C7_login_fallback
    { username := "u", password := "p", confirmPassword := "p" }
    (some RegistrationRole.customer) sampleSubmitEnv rfl rfl rfl
  exact ⟨h.1, (h.2 rfl rfl).1⟩

/-- C8: with a truthy token, a 401 response to the protected-endpoint
call triggers logout — whose resulting store state is unauthenticated
with the durable key removed — and sets the session-expired message,
while a response with any other status never triggers logout. -/
theorem C8_protected_401 (token : String) (htok : token ≠ "")
    (resp : ProtectedResponse) (env : JsEnv) (now : ℚ) :
    (resp.status = 401 →
      callProtectedEndpoint (some token) resp =
        { requested := true, loggedOut := true,
          message := "Session expired. Please login again." } ∧
      logout env now = { token := none, storage := none } ∧
      isAuthenticated (logout env now) = false) ∧
    (resp.status ≠ 401 →
      (callProtectedEndpoint (some token) resp).loggedOut = false) := by
  constructor
  · intro h401
    refine ⟨?_, rfl, rfl⟩
    unfold callProtectedEndpoint
    simp [jsTruthyStr, htok, h401, httpOk]
  · intro hne
    unfold callProtectedEndpoint
    by_cases hok : httpOk resp.status = false
    · simp [jsTruthyStr, htok, hok, hne]
    · simp [jsTruthyStr, htok, hok]

/-- C8 (witness): a 401 response with an empty body, holding the token
`t`: the call logs out and reports the session-expired message. -/
theorem C8_protected_401_witness :
    callProtectedEndpoint (some "t") { status := 401, bodyText := "" } =
      { requested := true, loggedOut := true,
        message := "Session expired. Please login again." } ∧
    isAuthenticated (logout failingJsEnv 0) = false := by
  have h := C8_protected_401 "t" (by decide)
    { status := 401, bodyText := "" } failingJsEnv 0
  exact ⟨(h.1 rfl).1, (h.1 rfl).2.2⟩

/-- C9: selecting a role different from the currently selected one
resets the three form fields to empty and records the new role, leaving
every other part of the component state (the snackbar fields) untouched;
re-selecting the currently selected role leaves the entire component
state unchanged. -/
theorem C9_role_selection (ty : RegistrationRole) (s : RegComponentState) :
    (some ty ≠ s.registrationType →
      onClickHandler ty s =
        { s with
            registrationType := some ty,
            registrationData :=
              { username := "", password := "", confirmPassword := "" } }) ∧
    (some ty = s.registrationType → onClickHandler ty s = s) := by
  constructor
  · intro h
    simp [onClickHandler, h]
  · intro h
    simp [onClickHandler, ← h]
    rw [h]

/-- C9 (witness): with no role selected and in-progress field input,
selecting the customer role resets the fields; re-selecting customer
afterwards changes nothing. -/
theorem C9_role_selection_witness :
    onClickHandler RegistrationRole.customer
      { registrationType := none,
        registrationData :=
          { username := "a", password := "b", confirmPassword := "c" },
        showSnackBar := false, snackBarMessage := "m",
        snackBarSeverity := AlertColor.info } =
      { registrationType := some RegistrationRole.customer,
        registrationData :=
          { username := "", password := "", confirmPassword := "" },
        showSnackBar := false, snackBarMessage := "m",
        snackBarSeverity := AlertColor.info } ∧
    onClickHandler RegistrationRole.customer
      { registrationType := some RegistrationRole.customer,
        registrationData :=
          { username := "a", password := "b", confirmPassword := "c" },
        showSnackBar := false, snackBarMessage := "m",
        snackBarSeverity := AlertColor.info } =
      { registrationType := some RegistrationRole.customer,
        registrationData :=
          { username := "a", password := "b", confirmPassword := "c" },
        showSnackBar := false, snackBarMessage := "m",
        snackBarSeverity := AlertColor.info } := by
  have h1 := C9_role_selection RegistrationRole.customer
    { registrationType := none,
      registrationData :=
        { username := "a", password := "b", confirmPassword := "c" },
      showSnackBar := false, snackBarMessage := "m",
      snackBarSeverity := AlertColor.info }
  have h2 := C9_role_selection RegistrationRole.customer
    { registrationType := some RegistrationRole.customer,
      registrationData :=
        { username := "a", password := "b", confirmPassword := "c" },
      showSnackBar := false, snackBarMessage := "m",
      snackBarSeverity := AlertColor.info }
  exact ⟨h1.1 (by decide), h2.2 rfl⟩

/-- A network environment whose registration endpoint answers 200 with a
plain-text body. -/
def textBodyEnv : SubmitEnv :=
  { registerResp := { status := 200, data := Json.str "OK" },
    loginResp := { status := 200, data := Json.null } }

/-- C10: token extraction returns no token from every body value that is
not a JSON object — in particular the `null` of an empty body, a plain
string, or a number. An empty body text parses to `null` and an
unparsable non-empty body text to that text as a string, so a textual
success body never authenticates; on the registration path such a body
falls through to the login call. -/
theorem C10_non_object_yields_no_token (j : Json)
    (hj : ∀ fields, j ≠ Json.obj fields) :
    extractToken j = none ∧
    (∀ env, parseResponseBody env "" = Json.null) ∧
    (∀ env text, text ≠ "" → env.parseJson text = none →
      parseResponseBody env text = Json.str text) ∧
    (∀ regd rt env, validateRegistrationData regd rt = none →
      env.registerResp.ok = true → env.registerResp.data = j →
      (submitHandler regd rt env).requests =
        [Request.register regd.username regd.password rt,
          Request.login regd.username regd.password]) := by
  have hext : extractToken j = none := by
    cases j with
    | null => rfl
    | bool b => cases b <;> simp [extractToken, jsTruthy, jsTypeofObject]
    | num q => simp [extractToken, jsTypeofObject]
    | str s => simp [extractToken, jsTypeofObject]
    | arr l => simp [extractToken, jsTruthy, jsTypeofObject, jsGet, jsNullish]
    | obj fields => exact absurd rfl (hj fields)
  refine ⟨hext, ?_, ?_, ?_⟩
  · intro env
    rfl
  · intro env text ht hp
    unfold parseResponseBody
    rw [if_neg ht, hp]
  · intro regd rt env hval hok hdata
    rw [submitHandler_eq_loginPhase regd rt env hval hok (by
      rw [hdata, hext]
      rfl)]
    exact loginPhase_requests regd rt _ env

/-- C10 (witness): a registration response with the text body `OK`
yields no token and the flow falls through to the login call. -/
theorem C10_non_object_yields_no_token_witness :
    extractToken (Json.str "OK") = none ∧
    (submitHandler { username := "u", password := "p", confirmPassword := "p" }
      (some RegistrationRole.customer) textBodyEnv).requests =
      [Request.register "u" "p" (some RegistrationRole.customer),
        Request.login "u" "p"] := by
  have h := C10_non_object_yields_no_token (Json.str "OK")
    (fun fields heq => nomatch heq)
  exact ⟨h.1, h.2.2.2
    { username := "u", password := "p", confirmPassword := "p" }
    (some RegistrationRole.customer) textBodyEnv rfl rfl rfl⟩
